import Mathlib

/-!
# Shallow embedding of `src/app/services/epic_games_service.py`

This file models the promotion-discovery function (`get_promotions`), the
agent reconciliation logic (`EpicAgent._sync_order_history`,
`EpicAgent._check_orders`, `EpicAgent._should_ignore_task`) and the
checkout-orchestrator logic (`EpicGames.add_promotion_to_cart`,
`EpicGames._empty_cart`) of the repository, and proves properties about
them.

Browser effects (navigation, clicking, waiting) are abstracted away: each
modelled function takes the observable page data it reads (button texts,
login-state attribute, parsed payloads) as explicit parameters, and the
data manipulation is translated statement by statement from the Python
source.
-/

namespace EpicGamesService

/-- Python substring test on lists of characters: does `needle` occur at the
head of `hay`? -/
def matchesAt : List Char → List Char → Bool
  | [], _ => true
  | _ :: _, [] => false
  | a :: as, b :: bs => a == b && matchesAt as bs

/-- Does `needle` occur anywhere in `hay`? -/
def occursIn (needle : List Char) : List Char → Bool
  | [] => needle.isEmpty
  | c :: rest => matchesAt needle (c :: rest) || occursIn needle rest

/-- Python's `needle in hay` substring test for strings. -/
def strContains (hay needle : String) : Bool :=
  occursIn needle.toList hay.toList

/-- Python `str.upper()` (over the ASCII strings of this program). -/
def pyUpper (s : String) : String := String.mk (s.toList.map Char.toUpper)

/-- Python `str.lower()` (over the ASCII strings of this program). -/
def pyLower (s : String) : String := String.mk (s.toList.map Char.toLower)

/-- Python `str.strip()`: remove leading and trailing whitespace. -/
def pyStrip (s : String) : String :=
  String.mk (((s.toList.dropWhile Char.isWhitespace).reverse.dropWhile
    Char.isWhitespace).reverse)

/-- Python `str.rstrip('/')`: remove all trailing slashes. -/
def pyRstripSlash (s : String) : String :=
  String.mk ((s.toList.reverse.dropWhile (fun c => c == '/')).reverse)

/-! ## A JSON value model

`get_promotions.is_discount_game` walks a raw JSON dictionary with
`suppress(KeyError, IndexError, TypeError)`, so its argument is modelled as
a JSON tree in which lookups can fail. Numbers are modelled as integers
(the discount percentages compared against `0`). -/

inductive JSON where
  | null : JSON
  | bool : Bool → JSON
  | num : Int → JSON
  | str : String → JSON
  | arr : List JSON → JSON
  | obj : List (String × JSON) → JSON

/-- Python `d[k]` on a JSON value: `some` only when the value is an object
with the key; every failing case (missing key, non-object) raises
`KeyError` / `TypeError` in the source, which the caller suppresses. -/
def JSON.get : JSON → String → Option JSON
  | .obj kvs, k => kvs.lookup k
  | _, _ => none

/-- Python `x[i]` for a natural index on a JSON value: `some` only when the
value is an array long enough; failing cases raise `IndexError` /
`KeyError` / `TypeError` in the source, which the caller suppresses. -/
def JSON.idx : JSON → Nat → Option JSON
  | .arr xs, i => xs.get? i
  | _, _ => none

/-- Python `v == 0`: true for the integer `0` and for `False`
(Python booleans compare equal to integers). -/
def pyEqZero : JSON → Bool
  | .num 0 => true
  | .bool false => true
  | _ => false

/-! ## Promotion discovery (`get_promotions`, lines 36-98) -/

/-- `offer["discountSetting"]["discountPercentage"]` with failures (missing
key, non-object) as `none`. -/
def offerDiscount (offer : JSON) : Option JSON :=
  (offer.get "discountSetting").bind (fun ds => ds.get "discountPercentage")

/-- The loop body of `is_discount_game`
(`for i, offer in enumerate(offers): if offer["discountSetting"]["discountPercentage"] == 0: return True`):
scan the offers in order; return `true` at the first zero-percentage
discount; abort (excluded) at the first offer whose discount field cannot
be read, because the raised `KeyError` / `TypeError` aborts the whole
suppressed block. -/
def scanOffers : List JSON → Bool
  | [] => false
  | offer :: rest =>
    match offerDiscount offer with
    | none => false
    | some v => if pyEqZero v then true else scanOffers rest

/-- `prot["promotions"]["promotionalOffers"][0]["promotionalOffers"]`,
required to be a list (iterating any other value ends in a suppressed
`TypeError` in the source): the offers of the FIRST promotional-offer
group. The argument is the entry's `promotions` field (`none` models a
missing `promotions` key). -/
def firstGroupOffers (promotions : Option JSON) : Option (List JSON) :=
  match promotions with
  | none => none
  | some p =>
    match (p.get "promotionalOffers").bind (fun po => po.idx 0) with
    | none => none
    | some grp =>
      match grp.get "promotionalOffers" with
      | some (.arr offers) => some offers
      | _ => none

/-- `get_promotions.is_discount_game` (lines 38-43): scan the first
promotional-offer group's offers; any structural failure is suppressed and
yields `false` (entry excluded). -/
def is_discount_game (promotions : Option JSON) : Bool :=
  match firstGroupOffers promotions with
  | some offers => scanOffers offers
  | none => false

/-- Does this offer have a zero (Python `== 0`) discount percentage? -/
def zeroOffer (offer : JSON) : Bool :=
  match offerDiscount offer with
  | some v => pyEqZero v
  | none => false

/-- Can this offer's discount percentage be read at all? -/
def wellFormedOffer (offer : JSON) : Bool :=
  (offerDiscount offer).isSome

/-- The filtering rule as the claim states it: the entry has at least one
promotional-offer group whose FIRST entry has a discount percentage of
exactly 0. Stated from the claim's words, for comparison with
`is_discount_game`, which is translated from the source. -/
def claimed_is_discount_game (promotions : Option JSON) : Bool :=
  match promotions with
  | none => false
  | some p =>
    match p.get "promotionalOffers" with
    | some (.arr groups) =>
      groups.any (fun grp =>
        match ((grp.get "promotionalOffers").bind (fun po => po.idx 0)).bind
            (fun o => (o.get "discountSetting").bind
              (fun ds => ds.get "discountPercentage")) with
        | some v => pyEqZero v
        | none => false)
    | _ => false

/-- One element of an entry's `offerMappings` list; `pageSlug` is `none`
when the `'pageSlug'` key is missing (a `KeyError` in the source). -/
structure OfferMapping where
  pageSlug : Option String
deriving DecidableEq

/-- One element of an entry's `categories` list; `path` is `none` when the
`'path'` key is missing (the source uses `cat.get("path", "")`). -/
structure Category where
  path : Option String
deriving DecidableEq

/-- A catalog entry, with the fields `get_promotions` reads. Optional
fields model `dict.get` lookups that may miss. `promotions` is kept as raw
JSON because `is_discount_game` walks it dynamically. -/
structure CatalogEntry where
  promotions : Option JSON
  offerType : Option String
  categories : List Category
  title : Option String
  offerMappings : Option (List OfferMapping)
  productSlug : Option String
  urlSlug : Option String
  «namespace» : String

/-- The result model `PromotionGame(**e)`, restricted to the fields the
agent later reads (`namespace`, `url`). -/
structure PromotionGame where
  «namespace» : String
  url : String
deriving DecidableEq

def URL_PRODUCT_PAGE : String := "https://store.epicgames.com/en-US/p/"

def URL_PRODUCT_BUNDLES : String := "https://store.epicgames.com/en-US/bundles/"

/-- Bundle classification (lines 68-79): `offerType == "BUNDLE"`, else some
category path contains `"bundle"` after lower-casing, else the title
(defaulting to `""`) contains `"Collection"`. The sequential
`if not is_bundle` chain of the source is the disjunction. -/
def is_bundle (e : CatalogEntry) : Bool :=
  (e.offerType == some "BUNDLE")
  || e.categories.any (fun c => strContains (pyLower (c.path.getD "")) "bundle")
  || strContains (e.title.getD "") "Collection"

/-- `base_url.rstrip('/')` for the chosen base (line 81 with lines 86-90):
the bundle base path when the entry is classified as a bundle, else the
product base path, with trailing slashes stripped. -/
def urlBase (e : CatalogEntry) : String :=
  pyRstripSlash (if is_bundle e then URL_PRODUCT_BUNDLES else URL_PRODUCT_PAGE)

/-- URL derivation (lines 81-93). `none` models the entry being dropped by
the `except (KeyError, IndexError)` handler, which fires exactly when
`offerMappings` is truthy but its first element lacks `'pageSlug'`.
`e.get("productSlug")` is a truthiness test, so an empty product slug
falls through to the `urlSlug` default. -/
def derive_url (e : CatalogEntry) : Option String :=
  let base := urlBase e
  match e.offerMappings with
  | some (m :: _) =>
    match m.pageSlug with
    | some slug => some (base ++ "/" ++ slug)
    | none => none
  | _ =>
    match e.productSlug with
    | some ps => if ps == "" then some (base ++ "/" ++ e.urlSlug.getD "unknown")
                 else some (base ++ "/" ++ ps)
    | none => some (base ++ "/" ++ e.urlSlug.getD "unknown")

/-- URL derivation as the claim states it: the slug priority is the first
offer-mapping page slug if `offerMappings` is non-empty, else the product
slug IF PRESENT, else the URL slug defaulting to `"unknown"`. Stated from
the claim's words, for comparison with `derive_url`, which is translated
from the source. -/
def claimed_derive_url (e : CatalogEntry) : Option String :=
  let base := urlBase e
  match e.offerMappings with
  | some (m :: _) =>
    match m.pageSlug with
    | some slug => some (base ++ "/" ++ slug)
    | none => none
  | _ =>
    match e.productSlug with
    | some ps => some (base ++ "/" ++ ps)
    | none => some (base ++ "/" ++ e.urlSlug.getD "unknown")

/-- URL derivation as amended: like the claim, but the product slug is used
only when it is present AND non-empty (Python truthiness), matching the
source's `elif e.get("productSlug"):`. -/
def amended_derive_url (e : CatalogEntry) : Option String :=
  let base := urlBase e
  match e.offerMappings with
  | some (m :: _) =>
    match m.pageSlug with
    | some slug => some (base ++ "/" ++ slug)
    | none => none
  | _ =>
    match e.productSlug with
    | some ps =>
      if ps = "" then some (base ++ "/" ++ e.urlSlug.getD "unknown")
      else some (base ++ "/" ++ ps)
    | none => some (base ++ "/" ++ e.urlSlug.getD "unknown")

/-- `get_promotions` (lines 36-98), as a function of the decoded response.
`none` models a `JSONDecodeError` from `resp.json()`: the source logs and
returns `[]`. Otherwise the parameter is the already-extracted
`data["data"]["Catalog"]["searchStore"]["elements"]` list; each element is
kept when it passes the discount filter and URL derivation succeeds. -/
def get_promotions (resp : Option (List CatalogEntry)) : List PromotionGame :=
  match resp with
  | none => []
  | some elements =>
    elements.foldr
      (fun e acc =>
        if is_discount_game e.promotions then
          match derive_url e with
          | some url => { «namespace» := e.«namespace», url := url } :: acc
          | none => acc
        else acc) []

/-! ## Order history (`EpicAgent._sync_order_history`, lines 111-129) -/

/-- An order item; `namespace` is `none` when absent/null. -/
structure OrderItem where
  «namespace» : Option String
deriving DecidableEq

/-- An order: a type tag and its items. -/
structure Order where
  orderType : String
  items : List OrderItem
deriving DecidableEq

/-- The retention test of line 124, `if not item.namespace or
len(item.namespace) != 32: continue`: the namespace must be truthy
(present and non-empty) and have length exactly 32. -/
def validNamespace : Option String → Bool
  | some s => !(s == "") && s.length == 32
  | none => false

/-- The extraction loop of `_sync_order_history` (lines 119-126): keep, in
order, every item of every `"PURCHASE"`-typed order whose namespace passes
`validNamespace`. -/
def extract_completed_orders : List Order → List OrderItem
  | [] => []
  | o :: rest =>
    if o.orderType == "PURCHASE" then
      o.items.filter (fun it => validNamespace it.«namespace») ++ extract_completed_orders rest
    else
      extract_completed_orders rest

/-! ## Agent state and reconciliation (`EpicAgent`, lines 101-147) -/

/-- The session state of `EpicAgent.__init__` that the modelled methods
read and write. `namespaces` holds raw `order.namespace` values, hence
`Option String` entries. -/
structure AgentState where
  promotions : List PromotionGame
  ctx_cookies_is_available : Bool
  orders : List OrderItem
  namespaces : List (Option String)
deriving DecidableEq

/-- The state of a fresh `EpicAgent` (lines 105-108). -/
def initAgentState : AgentState :=
  { promotions := [], ctx_cookies_is_available := false, orders := [], namespaces := [] }

/-- `_sync_order_history` (lines 111-129): a no-op when `self._orders` is
already non-empty; otherwise store the extraction of the fetched payload.
`fetched` is the parsed order-history payload the page returned. -/
def sync_order_history (fetched : List Order) (st : AgentState) : AgentState :=
  if st.orders.isEmpty then { st with orders := extract_completed_orders fetched } else st

/-- `_check_orders` (lines 131-134): sync the order history, set
`self._namespaces = self._namespaces or [order.namespace for order in self._orders]`,
then filter the discovery result `d` (the value of `get_promotions()`) by
`p.«namespace» not in self._namespaces`. -/
def check_orders (fetched : List Order) (d : List PromotionGame) (st : AgentState) : AgentState :=
  let st1 := sync_order_history fetched st
  let ns := if st1.namespaces.isEmpty then st1.orders.map (fun o => o.«namespace»)
            else st1.namespaces
  { st1 with
    namespaces := ns,
    promotions := d.filter (fun p => !(ns.contains (some p.«namespace»))) }

/-- `_should_ignore_task` (lines 136-147). `status` is the value of
`get_attribute("isloggedin")` (`none` when the attribute is absent). The
flag is cleared first; when the status is the string `"false"` the method
returns `False` at once; otherwise the flag is set, `_check_orders` runs,
and the method returns whether the pending list is empty. -/
def should_ignore_task (status : Option String) (fetched : List Order)
    (d : List PromotionGame) (st : AgentState) : Bool × AgentState :=
  let st0 := { st with ctx_cookies_is_available := false }
  if status == some "false" then
    (false, st0)
  else
    let st1 := { st0 with ctx_cookies_is_available := true }
    let st2 := check_orders fetched d st1
    (st2.promotions.isEmpty, st2)

/-! ## Checkout orchestrator (`EpicGames.add_promotion_to_cart`,
lines 259-331) -/

/-- The observable data of one loaded product page that the loop body of
`add_promotion_to_cart` reads: the page title (404 check), whether the
purchase button locator is visible, the body text (already-owned scan when
the button is missing), and the button's `text_content()` (`none` models a
null text content). -/
structure PageView where
  title : String
  purchaseBtnVisible : Bool
  bodyText : String
  btnText : Option String

/-- The outcome of one iteration of the URL loop. -/
inductive UrlAction where
  | notFound
  | alreadyOwned
  | noButton
  | skippedBlacklist
  | addToCart
  | instantCheckout
deriving DecidableEq

/-- The blacklist of line 309. -/
def BLACKLIST : List String := ["IN LIBRARY", "OWNED", "UNAVAILABLE", "COMING SOON"]

/-- The loop body of `add_promotion_to_cart` (lines 262-328) as a
classifier: 404 pages are skipped; a missing button is resolved by the
body-text scan; otherwise the button text (defaulted to `""`, stripped,
upper-cased) is classified blacklist-first, then `"CART"`, then the
aggressive-click / instant-checkout default. -/
def classify_page (pv : PageView) : UrlAction :=
  if strContains pv.title "404" || strContains pv.title "Page Not Found" then
    .notFound
  else if !pv.purchaseBtnVisible then
    if strContains pv.bodyText "In Library" || strContains pv.bodyText "Owned" then
      .alreadyOwned
    else
      .noButton
  else
    let btn_text := pv.btnText.getD ""
    let btn_text_upper := pyUpper (pyStrip btn_text)
    if BLACKLIST.any (fun s => strContains btn_text_upper s) then
      .skippedBlacklist
    else if strContains btn_text_upper "CART" then
      .addToCart
    else
      .instantCheckout

/-- The button classification as the claim states it: a pure function of
the normalized button text, blacklist terms first, then `"CART"`, then the
aggressive default. Stated from the claim's words, for comparison with
`classify_page`, which is translated from the source. -/
def classify_key (u : String) : UrlAction :=
  if BLACKLIST.any (fun s => strContains u s) then .skippedBlacklist
  else if strContains u "CART" then .addToCart
  else .instantCheckout

/-- The accumulator loop of `add_promotion_to_cart`: `has_pending_cart_items`
starts `False` and is set exactly in the `"CART"` branch. -/
def add_promotion_to_cart_loop : List PageView → Bool → Bool
  | [], acc => acc
  | pv :: rest, acc =>
    match classify_page pv with
    | .addToCart => add_promotion_to_cart_loop rest true
    | _ => add_promotion_to_cart_loop rest acc

/-- `add_promotion_to_cart` (lines 259-331): the returned
`has_pending_cart_items` flag over the pages loaded from the URL list. -/
def add_promotion_to_cart (pages : List PageView) : Bool :=
  add_promotion_to_cart_loop pages false

/-! ## Cart emptying (`EpicGames._empty_cart`, lines 333-353) -/

/-- The outcome of one scan of the cart page: either a `TimeoutError` was
raised (caught at line 351), or the scan ran through and `has_paid_free`
ended up with the given value. -/
inductive ScanResult where
  | timeout : ScanResult
  | ok : Bool → ScanResult
deriving DecidableEq

/-- `_empty_cart` (lines 333-353). `scans i` is the outcome of the `i`-th
scan of the cart; `k` is the index of the scan this invocation performs;
the `Nat` argument is `wait_rerender`. Returns the boolean result paired
with the number of scans performed. The source re-scans (with the
countdown decremented) exactly when paid items were removed and the
countdown is still truthy, and returns `False` exactly when a scan raises
`TimeoutError`. -/
def empty_cart (scans : Nat → ScanResult) : Nat → Nat → Bool × Nat
  | k, 0 =>
    match scans k with
    | .timeout => (false, 1)
    | .ok _ => (true, 1)
  | k, n + 1 =>
    match scans k with
    | .timeout => (false, 1)
    | .ok hasPaid =>
      if hasPaid then
        let r := empty_cart scans (k + 1) n
        (r.1, r.2 + 1)
      else
        (true, 1)


/-! ## Helper lemmas -/

theorem add_promotion_to_cart_loop_eq_any (pages : List PageView) (acc : Bool) :
    add_promotion_to_cart_loop pages acc
      = (acc || pages.any (fun pv => classify_page pv == UrlAction.addToCart)) := by
  induction pages generalizing acc with
  | nil => simp [add_promotion_to_cart_loop]
  | cons pv rest ih =>
    simp only [add_promotion_to_cart_loop, List.any_cons]
    cases h : classify_page pv <;>
      simp [h, ih, Bool.or_assoc, Bool.or_comm, Bool.or_left_comm] <;> rfl

/-! ## The claims -/

/-- C8: if the promotions endpoint response body is not valid JSON,
`get_promotions` returns the empty list; no exception propagates to the
caller in that case (the model is a total function). The logging side
effect is not modelled. -/
theorem C8_decode_failure_returns_empty : get_promotions none = [] := rfl

/-- C4: `add_promotion_to_cart` returns `true` if and only if at least one
URL's page was classified into the cart branch; pages classified as
not-found, already-owned, no-button, blacklisted or instant-checkout do
not make it return `true`. -/
theorem C4_add_promotion_to_cart_true_iff (pages : List PageView) :
    add_promotion_to_cart pages = true
      ↔ ∃ pv ∈ pages, classify_page pv = UrlAction.addToCart := by
  simp [add_promotion_to_cart, add_promotion_to_cart_loop_eq_any, List.any_eq_true]

/-- C3: for every page that reaches button classification (its title is not
a 404 title and the purchase button is visible), the outcome of the loop
body of `add_promotion_to_cart` is a pure function of the normalized
(stripped, upper-cased) button text, with the claimed priority: blacklist
terms skip, else a `"CART"` substring routes to the cart branch, else the
aggressive click / instant-checkout branch is taken; this is exactly
`classify_key`, stated from the claim's words. -/
theorem C3_button_classification (pv : PageView)
    (h404 : (strContains pv.title "404" || strContains pv.title "Page Not Found") = false)
    (hvis : pv.purchaseBtnVisible = true) :
    classify_page pv = classify_key (pyUpper (pyStrip (pv.btnText.getD ""))) := by
  simp [classify_page, classify_key, h404, hvis]

theorem C3_button_classification_witness :
    classify_page
        { title := "Epic Game", purchaseBtnVisible := true, bodyText := "",
          btnText := some "Add to Cart" }
      = classify_key (pyUpper (pyStrip ((some "Add to Cart").getD ""))) :=
  C3_button_classification
    { title := "Epic Game", purchaseBtnVisible := true, bodyText := "",
      btnText := some "Add to Cart" }
    (by decide) rfl

/-- C10: if the located purchase button's text content is missing (`none`)
or empty, the loop body of `add_promotion_to_cart` treats it as the empty
string and takes the aggressive-click / instant-checkout branch: it is
neither skipped as blacklisted nor routed to the cart branch. -/
theorem C10_empty_button_text (pv : PageView)
    (h404 : (strContains pv.title "404" || strContains pv.title "Page Not Found") = false)
    (hvis : pv.purchaseBtnVisible = true)
    (htext : pv.btnText = none ∨ pv.btnText = some "") :
    classify_page pv = UrlAction.instantCheckout := by
  rcases htext with h | h <;> simp [classify_page, h404, hvis, h] <;> decide

theorem C10_empty_button_text_witness :
    classify_page
        { title := "Epic Game", purchaseBtnVisible := true, bodyText := "", btnText := none }
      = UrlAction.instantCheckout :=
  C10_empty_button_text
    { title := "Epic Game", purchaseBtnVisible := true, bodyText := "", btnText := none }
    (by decide) rfl (Or.inl rfl)

theorem empty_cart_scan_count_pos (scans : Nat → ScanResult) (k n : Nat) :
    1 ≤ (empty_cart scans k n).2 := by
  cases n <;> cases h : scans k <;> simp [empty_cart, h]
  split <;> simp

/-- C9: for every countdown value `n`, `_empty_cart` performs at most
`n + 1` scans (the countdown strictly decreases on each re-scan and
re-scanning stops when it reaches 0); it returns `False` only when a scan
raises a timeout-class failure (the scan it stopped at timed out), and it
returns `True` whenever no scan in the allotted window times out,
including when the bound is exhausted. -/
theorem C9_empty_cart_bound_and_result (scans : Nat → ScanResult) (k n : Nat) :
    (empty_cart scans k n).2 ≤ n + 1
    ∧ ((empty_cart scans k n).1 = false →
        scans (k + ((empty_cart scans k n).2 - 1)) = ScanResult.timeout)
    ∧ ((∀ i, i ≤ n → scans (k + i) ≠ ScanResult.timeout) →
        (empty_cart scans k n).1 = true) := by
  induction n generalizing k with
  | zero =>
    cases h : scans k with
    | timeout =>
      refine ⟨by simp [empty_cart, h], ?_, ?_⟩
      · intro _; simp [empty_cart, h]
      · intro hall; exact absurd h (by simpa using hall 0 (le_refl 0))
    | ok b => exact ⟨by simp [empty_cart, h], by simp [empty_cart, h], by simp [empty_cart, h]⟩
  | succ n ih =>
    cases h : scans k with
    | timeout =>
      refine ⟨by simp [empty_cart, h], ?_, ?_⟩
      · intro _; simp [empty_cart, h]
      · intro hall; exact absurd h (by simpa using hall 0 (Nat.zero_le _))
    | ok b =>
      by_cases hb : b = true
      · subst hb
        have hpos := empty_cart_scan_count_pos scans (k + 1) n
        obtain ⟨ih1, ih2, ih3⟩ := ih (k + 1)
        have hred : empty_cart scans k (n + 1)
            = ((empty_cart scans (k + 1) n).1, (empty_cart scans (k + 1) n).2 + 1) := by
          simp [empty_cart, h]
        refine ⟨?_, ?_, ?_⟩
        · rw [hred]; simp only []; omega
        · rw [hred]
          intro hfalse
          have hscan := ih2 hfalse
          have harith : k + ((empty_cart scans (k + 1) n).2 + 1 - 1)
              = k + 1 + ((empty_cart scans (k + 1) n).2 - 1) := by omega
          rw [harith]
          exact hscan
        · rw [hred]
          intro hall
          refine ih3 (fun i hi => ?_)
          have := hall (i + 1) (by omega)
          simpa [Nat.add_assoc, Nat.add_comm 1 i] using this
      · have hb' : b = false := by simpa using hb
        subst hb'
        exact ⟨by simp [empty_cart, h], by simp [empty_cart, h], by simp [empty_cart, h]⟩

theorem C9_empty_cart_bound_and_result_witness :
    (empty_cart (fun _ => ScanResult.ok false) 0 30).1 = true :=
  (C9_empty_cart_bound_and_result (fun _ => ScanResult.ok false) 0 30).2.2
    (fun _ _ h => ScanResult.noConfusion h)

theorem validNamespace_eq_true_iff (ns : Option String) :
    validNamespace ns = true ↔ ∃ s, ns = some s ∧ s ≠ "" ∧ s.length = 32 := by
  cases ns <;> simp [validNamespace]

/-- C6: `_sync_order_history` retains an item if and only if some parent
order of the payload has type exactly `"PURCHASE"` and contains it, and
its namespace is non-empty with length exactly 32; every other item is
excluded from the owned set. -/
theorem C6_order_history_retention (orders : List Order) (it : OrderItem) :
    it ∈ extract_completed_orders orders
      ↔ ∃ o ∈ orders, o.orderType = "PURCHASE" ∧ it ∈ o.items
          ∧ ∃ s, it.«namespace» = some s ∧ s ≠ "" ∧ s.length = 32 := by
  induction orders with
  | nil => simp [extract_completed_orders]
  | cons o rest ih =>
    by_cases h : o.orderType = "PURCHASE" <;>
      simp [extract_completed_orders, beq_iff_eq, h, ih, List.mem_filter,
        validNamespace_eq_true_iff, or_and_right, exists_or]

theorem check_orders_idem (fetched : List Order) (d : List PromotionGame)
    (st : AgentState) :
    check_orders fetched d (check_orders fetched d st) = check_orders fetched d st := by
  cases st with
  | mk promos ctx orders nss =>
    by_cases h1 : orders.isEmpty <;> by_cases h2 : nss.isEmpty <;>
      simp [check_orders, sync_order_history, h1, h2]

/-- C7: after `_check_orders` from a fresh session state, the
pending-promotions list equals the discovery results minus the entries
whose namespace is in the owned-namespace set derived from the synced
order history; and a second `_check_orders` call with the same fetched
order history and the same (deterministic) discovery result leaves the
state unchanged (idempotence), from any starting state. -/
theorem C7_check_orders_pending_and_idempotent (fetched : List Order)
    (d : List PromotionGame) (st : AgentState) :
    (check_orders fetched d initAgentState).promotions
      = d.filter (fun p =>
          !(((extract_completed_orders fetched).map (fun o => o.«namespace»)).contains
              (some p.«namespace»)))
    ∧ check_orders fetched d (check_orders fetched d st) = check_orders fetched d st :=
  ⟨by simp [check_orders, sync_order_history, initAgentState],
   check_orders_idem fetched d st⟩

/-- C1 counterexample: when the login-state indicator reports
not-logged-in (`isloggedin = "false"`), `_should_ignore_task` returns
`False`, not `True` as the claim states (the caller skips the run through
the `_ctx_cookies_is_available` flag instead). -/
theorem C1_should_ignore_task_counterexample :
    (should_ignore_task (some "false") [] [] initAgentState).1 = false := rfl

/-- C1 (amended): when the login-state indicator reports not-logged-in,
`_should_ignore_task` returns `False` without calling `_check_orders`, and
the credentials-unusable flag stays `False` (the returned state differs
from the input state only in that flag); when logged in, the flag is set
and it returns `True` if and only if the pending-promotions list is empty
after `_check_orders`. -/
theorem C1_should_ignore_task_amended (status : Option String) (fetched : List Order)
    (d : List PromotionGame) (st : AgentState) :
    (status = some "false" →
      should_ignore_task status fetched d st
        = (false, { st with ctx_cookies_is_available := false }))
    ∧ (status ≠ some "false" →
        (should_ignore_task status fetched d st).2
            = check_orders fetched d { st with ctx_cookies_is_available := true }
          ∧ ((should_ignore_task status fetched d st).1 = true
              ↔ (check_orders fetched d
                  { st with ctx_cookies_is_available := true }).promotions = [])) := by
  constructor
  · intro h; subst h; simp [should_ignore_task]
  · intro h
    have hb : (status == some "false") = false := by
      simp [beq_eq_false_iff_ne, h]
    simp [should_ignore_task, hb, List.isEmpty_iff]

theorem C1_should_ignore_task_amended_witness :
    should_ignore_task (some "false") [] [] initAgentState = (false, initAgentState)
    ∧ (should_ignore_task (some "true") [] [] initAgentState).1 = true := by
  constructor
  · exact (C1_should_ignore_task_amended (some "false") [] [] initAgentState).1 rfl
  · exact ((C1_should_ignore_task_amended (some "true") [] [] initAgentState).2
      (by decide)).2.mpr rfl

theorem scanOffers_eq_true_iff (offers : List JSON) :
    scanOffers offers = true
      ↔ ∃ i o, offers.get? i = some o ∧ zeroOffer o = true
          ∧ ∀ j o', j < i → offers.get? j = some o' → wellFormedOffer o' = true := by
  induction offers with
  | nil => simp [scanOffers]
  | cons a rest ih =>
    have hcons : scanOffers (a :: rest)
        = (match offerDiscount a with
           | none => false
           | some v => if pyEqZero v then true else scanOffers rest) := rfl
    constructor
    · intro h
      rw [hcons] at h
      cases hd : offerDiscount a with
      | none => rw [hd] at h; exact Bool.noConfusion h
      | some v =>
        rw [hd] at h
        by_cases hz : pyEqZero v = true
        · exact ⟨0, a, rfl, by simp [zeroOffer, hd, hz],
            fun j o' hj => absurd hj (Nat.not_lt_zero j)⟩
        · have hrest : scanOffers rest = true := by
            have h2 : (if pyEqZero v = true then true else scanOffers rest) = true := h
            rwa [if_neg hz] at h2
          obtain ⟨i, o, hget, hzero, hwf⟩ := ih.mp hrest
          refine ⟨i + 1, o, by simpa using hget, hzero, ?_⟩
          intro j o' hj hgj
          cases j with
          | zero =>
            simp only [List.get?_cons_zero, Option.some.injEq] at hgj
            subst hgj
            simp [wellFormedOffer, hd]
          | succ j' =>
            exact hwf j' o' (by omega) (by simpa using hgj)
    · rintro ⟨i, o, hget, hzero, hwf⟩
      rw [hcons]
      cases i with
      | zero =>
        simp only [List.get?_cons_zero, Option.some.injEq] at hget
        subst hget
        cases hd : offerDiscount a with
        | none =>
          have hfalse : zeroOffer a = false := by simp [zeroOffer, hd]
          rw [hfalse] at hzero; exact Bool.noConfusion hzero
        | some v =>
          have hz : pyEqZero v = true := by
            have heq : zeroOffer a = pyEqZero v := by simp [zeroOffer, hd]
            rwa [heq] at hzero
          show (if pyEqZero v = true then true else scanOffers rest) = true
          rw [if_pos hz]
      | succ i' =>
        have h0 : wellFormedOffer a = true := hwf 0 a (Nat.succ_pos i') rfl
        cases hd : offerDiscount a with
        | none =>
          have hfalse : wellFormedOffer a = false := by simp [wellFormedOffer, hd]
          rw [hfalse] at h0; exact Bool.noConfusion h0
        | some v =>
          show (if pyEqZero v = true then true else scanOffers rest) = true
          by_cases hz : pyEqZero v = true
          · rw [if_pos hz]
          · rw [if_neg hz]
            exact ih.mpr ⟨i', o, by simpa using hget, hzero,
              fun j o' hj hgj => hwf (j + 1) o' (by omega) (by simpa using hgj)⟩

/-- C2 (amended): the discount filter of `get_promotions` accepts an entry
exactly when its FIRST promotional-offer group contains an offer with a
discount percentage equal to 0 that is preceded only by offers whose
discount field is readable (the suppressed scan stops at the first
malformed offer); every entry lacking this structure (missing keys, wrong
types, empty lists) is silently excluded (`is_discount_game` is total and
returns `false` on them). -/
theorem C2_discount_filter_amended (promotions : Option JSON) :
    is_discount_game promotions = true
      ↔ ∃ offers, firstGroupOffers promotions = some offers
          ∧ ∃ i o, offers.get? i = some o ∧ zeroOffer o = true
              ∧ ∀ j o', j < i → offers.get? j = some o' → wellFormedOffer o' = true := by
  cases h : firstGroupOffers promotions <;>
    simp [is_discount_game, h, scanOffers_eq_true_iff]

/-- A catalog entry whose first promotional-offer group has a non-zero
FIRST offer and a zero SECOND offer. -/
def c2Entry : CatalogEntry :=
  { promotions := some (.obj [("promotionalOffers",
      .arr [.obj [("promotionalOffers",
        .arr [.obj [("discountSetting", .obj [("discountPercentage", .num 25)])],
              .obj [("discountSetting", .obj [("discountPercentage", .num 0)])]])]])]),
    offerType := none, categories := [], title := none,
    offerMappings := none, productSlug := some "game-a", urlSlug := none,
    «namespace» := "ns-a" }

/-- C2 counterexample: `get_promotions` includes `c2Entry`, yet `c2Entry`
has no promotional-offer group whose FIRST entry has a discount percentage
of 0 (the claim-side predicate is false on it): the code scans every offer
of the first group, not the first offer of every group. -/
theorem C2_counterexample :
    (get_promotions (some [c2Entry])).length = 1
    ∧ claimed_is_discount_game c2Entry.promotions = false := by
  constructor <;> rfl

/-- C5 (amended): URL derivation is deterministic and total up to the
single drop case. The entry is classified as a bundle by `is_bundle`
(offer-type tag `BUNDLE`, else a category path containing `"bundle"`
case-insensitively, else a title containing `"Collection"`), fixing the
base path `urlBase`; the slug priority is: the first offer-mapping page
slug if `offerMappings` is non-empty (the entry being dropped exactly when
that mapping lacks its page slug — the key-error case), else the product
slug if present AND non-empty, else the URL slug defaulting to
`"unknown"`. -/
theorem C5_url_derivation_amended (e : CatalogEntry) :
    derive_url e = amended_derive_url e
    ∧ (derive_url e = none
        ↔ ∃ m ms, e.offerMappings = some (m :: ms) ∧ m.pageSlug = none)
    ∧ (∀ m ms s, e.offerMappings = some (m :: ms) → m.pageSlug = some s →
        derive_url e = some (urlBase e ++ "/" ++ s))
    ∧ ((e.offerMappings = none ∨ e.offerMappings = some []) →
        (∀ s, e.productSlug = some s → s ≠ "" →
          derive_url e = some (urlBase e ++ "/" ++ s))
        ∧ ((e.productSlug = none ∨ e.productSlug = some "") →
          derive_url e = some (urlBase e ++ "/" ++ e.urlSlug.getD "unknown"))) := by
  obtain ⟨prom, ot, cats, ti, om, ps, us, nsid⟩ := e
  rcases om with _ | ⟨_ | ⟨⟨slug?⟩, ms⟩⟩
  · rcases ps with _ | s
    · simp [derive_url, amended_derive_url, beq_iff_eq]
    · by_cases hs : s = "" <;> simp [derive_url, amended_derive_url, beq_iff_eq, hs]
  · rcases ps with _ | s
    · simp [derive_url, amended_derive_url, beq_iff_eq]
    · by_cases hs : s = "" <;> simp [derive_url, amended_derive_url, beq_iff_eq, hs]
  · rcases slug? with _ | slug
    · simp [derive_url, amended_derive_url]
      rintro m ms1 s rfl rfl
      simp
    · simp [derive_url, amended_derive_url]
      rintro m ms1 s rfl rfl h
      simp only [Option.some.injEq] at h
      subst h
      rfl

/-- A catalog entry with no offer mappings, a present-but-empty product
slug and URL slug `"xyz"`. -/
def c5Entry : CatalogEntry :=
  { promotions := none, offerType := none, categories := [], title := none,
    offerMappings := none, productSlug := some "", urlSlug := some "xyz",
    «namespace» := "ns-b" }

/-- C5 counterexample: the claim's slug priority says "else the product
slug if present"; on `c5Entry` the product slug is present (the empty
string), yet the source treats it as falsy (`elif e.get("productSlug"):`)
and falls through to the URL slug, so the derived URL differs from the
claimed one. -/
theorem C5_counterexample :
    derive_url c5Entry = some "https://store.epicgames.com/en-US/p/xyz"
    ∧ claimed_derive_url c5Entry = some "https://store.epicgames.com/en-US/p/"
    ∧ derive_url c5Entry ≠ claimed_derive_url c5Entry := by
  refine ⟨rfl, rfl, ?_⟩
  decide

/-- A catalog entry with one offer mapping carrying a page slug. -/
def c5WitnessEntry : CatalogEntry :=
  { promotions := none, offerType := some "BUNDLE", categories := [], title := none,
    offerMappings := some [{ pageSlug := some "the-slug" }], productSlug := none,
    urlSlug := none, «namespace» := "ns-c" }

theorem C5_url_derivation_amended_witness :
    derive_url c5WitnessEntry = some (urlBase c5WitnessEntry ++ "/" ++ "the-slug") :=
  (C5_url_derivation_amended c5WitnessEntry).2.2.1 { pageSlug := some "the-slug" } [] "the-slug"
    rfl rfl

end EpicGamesService
